import Mathlib

/-!
Shallow embedding of the steering control core of
`src/controllers/speed_car_controller/speed_car_controller.py`.

Python floats are modelled as rationals (`ℚ`); the magic sentinel
`UNKNOWN = 99999.99` is kept as a rational constant, as in the source.
Python's float division raises `ZeroDivisionError` on a zero divisor, so
the divisions of `_run_autodrive` are embedded through `pydiv`, which
returns `Except Unit ℚ`.  Mutating methods become state-passing
functions.
-/

namespace SpeedCar

/-- PID gains, from the tuneable-parameter block of the source. -/
def KP : ℚ := 25/100

def KI : ℚ := 6/1000

def KD : ℚ := 2

/-- Yellow line filter window size (`FILTER_SIZE = 3`). -/
def FILTER_SIZE : ℕ := 3

/-- The absence sentinel `UNKNOWN = 99999.99`. -/
def UNKNOWN : ℚ := 9999999/100

/-- `math.copysign(1, x)` for a rational `x`: Python returns `-1.0` for
negative inputs (and negative zero, which has no rational counterpart)
and `1.0` otherwise; exact `0` is treated as positive. -/
def pysign (x : ℚ) : ℚ := if x < 0 then -1 else 1

/-- Python float division: raises `ZeroDivisionError` when the divisor is
zero, modelled as `Except.error ()`. -/
def pydiv (a b : ℚ) : Except Unit ℚ :=
  if b = 0 then Except.error () else Except.ok (a / b)

/-- State of `LaneFollowPID`: `old_value`, `integral`, `need_reset`. -/
structure LaneFollowPID where
  old_value : ℚ
  integral : ℚ
  need_reset : Bool
  deriving Repr, DecidableEq

/-- `LaneFollowPID.__init__`. -/
def LaneFollowPID.init : LaneFollowPID :=
  { old_value := 0, integral := 0, need_reset := false }

/-- `LaneFollowPID.reset`: lazy, just flags the next update. -/
def LaneFollowPID.reset (s : LaneFollowPID) : LaneFollowPID :=
  { s with need_reset := true }

/-- `LaneFollowPID.update(angle)`: returns the new state and the output
`KP*angle + KI*integral + KD*diff`. -/
def LaneFollowPID.update (s : LaneFollowPID) (angle : ℚ) :
    LaneFollowPID × ℚ :=
  let s1 :=
    if s.need_reset then
      { old_value := angle, integral := 0, need_reset := false }
    else s
  let s2 :=
    if pysign angle ≠ pysign s1.old_value then { s1 with integral := 0 }
    else s1
  let diff := angle - s2.old_value
  let s3 :=
    if -30 < s2.integral ∧ s2.integral < 30 then
      { s2 with integral := s2.integral + angle }
    else s2
  let s4 := { s3 with old_value := angle }
  (s4, KP * angle + KI * s4.integral + KD * diff)

/-- Fold `LaneFollowPID.update` over a list of error inputs, keeping only
the state. -/
def runPID (s : LaneFollowPID) (errs : List ℚ) : LaneFollowPID :=
  errs.foldl (fun st e => (st.update e).1) s

/-- State of `AngleFilter`: the sliding window and the first-call flag. -/
structure AngleFilter where
  values : List ℚ
  first_call : Bool
  deriving Repr, DecidableEq

/-- `AngleFilter.__init__`. -/
def AngleFilter.init : AngleFilter :=
  { values := List.replicate FILTER_SIZE 0, first_call := true }

/-- `AngleFilter.update(new_value)`: returns the new state and the value
returned to the caller. -/
def AngleFilter.update (f : AngleFilter) (new_value : ℚ) :
    AngleFilter × ℚ :=
  let f1 :=
    if f.first_call ∨ new_value = UNKNOWN then
      { values := List.replicate FILTER_SIZE 0, first_call := false }
    else
      { f with values := f.values.drop 1 ++ [new_value] }
  if new_value = UNKNOWN then (f1, UNKNOWN)
  else (f1, f1.values.sum / (FILTER_SIZE : ℚ))

/-- `SpeedCarController._set_steering_angle(angle)` as a pure function of
the previous committed angle: returns the new committed
`self.steering_angle` and the clamped value forwarded to
`driver.setSteeringAngle`. -/
def set_steering_angle (current angle : ℚ) : ℚ × ℚ :=
  let delta := angle - current
  let angle1 := if delta > 1/10 then current + 1/10 else angle
  let angle2 := if delta < -1/10 then current - 1/10 else angle1
  (angle2, max (-(1/2)) (min (1/2) angle2))

/-- Committed angle only (first component of `set_steering_angle`). -/
def applySteer (current target : ℚ) : ℚ :=
  (set_steering_angle current target).1

/-- The avoidance-steer computation of `_run_autodrive` (lines 311-316):
`avoid_steer` starts at the current committed steering angle and is
overwritten when one of the two bearing branches fires; `none` in the
result means neither branch fired (no bias produced). -/
def compute_bias (steering_angle obs_angle obs_dist : ℚ) :
    Except Unit (Option ℚ) :=
  if 0 < obs_angle ∧ obs_angle < 4/10 then
    (pydiv (obs_angle - 1/4) obs_dist).map
      (fun q => some (steering_angle + q))
  else if obs_angle > -(4/10) then
    (pydiv (obs_angle + 1/4) obs_dist).map
      (fun q => some (steering_angle + q))
  else Except.ok none

/-- `avoid_steer` as the source holds it: the bias when produced,
otherwise the unchanged current steering angle. -/
def compute_avoid_steer (steering_angle obs_angle obs_dist : ℚ) :
    Except Unit ℚ :=
  (compute_bias steering_angle obs_angle obs_dist).map
    (fun o => o.getD steering_angle)

/-- Result of one `_run_autodrive` tick: the PID state, the committed
steering angle, the target handed to `_set_steering_angle` (if it was
called), the clamped angle forwarded to the backend (if any), and the
brake intensity commanded. -/
structure DriveOut where
  pid : LaneFollowPID
  steering_angle : ℚ
  target : Option ℚ
  backend : Option ℚ
  brake : ℚ
  deriving Repr, DecidableEq

/-- `SpeedCarController._run_autodrive(yellow_angle, obs_angle, obs_dist)`
as a state-passing function over the PID state and the committed
steering angle. -/
def run_autodrive (pid : LaneFollowPID) (steering_angle : ℚ)
    (has_sick : Bool) (yellow_angle obs_angle obs_dist : ℚ) :
    Except Unit DriveOut :=
  if has_sick = true ∧ obs_angle ≠ UNKNOWN then
    (compute_avoid_steer steering_angle obs_angle obs_dist).map
      (fun avoid_steer =>
        let pr :=
          if yellow_angle ≠ UNKNOWN then
            let u := pid.update yellow_angle
            let line_steer := u.2
            let steer :=
              if avoid_steer > 0 ∧ line_steer > 0 then
                max avoid_steer line_steer
              else if avoid_steer < 0 ∧ line_steer < 0 then
                min avoid_steer line_steer
              else avoid_steer
            (u.1, steer)
          else (pid.reset, avoid_steer)
        let sa := set_steering_angle steering_angle pr.2
        { pid := pr.1, steering_angle := sa.1, target := some pr.2,
          backend := some sa.2, brake := 0 })
  else if yellow_angle ≠ UNKNOWN then
    let u := pid.update yellow_angle
    let sa := set_steering_angle steering_angle u.2
    Except.ok
      { pid := u.1, steering_angle := sa.1, target := some u.2,
        backend := some sa.2, brake := 0 }
  else
    Except.ok
      { pid := pid.reset, steering_angle := steering_angle,
        target := none, backend := none, brake := 4/10 }

/-- Keyboard events consumed by `_handle_keyboard` (`-1` is `noKey`). -/
inductive Key where
  | noKey | up | down | right | left | keyA
  deriving Repr, DecidableEq

/-- The driving state touched by `_handle_keyboard`. -/
structure CarState where
  autodrive : Bool
  has_camera : Bool
  speed_kph : ℚ
  steering_angle : ℚ
  manual_steer : ℤ
  deriving Repr, DecidableEq

/-- `SpeedCarController._set_speed(kph)`: clamp to 250 km/h. -/
def set_speed (s : CarState) (kph : ℚ) : CarState :=
  { s with speed_kph := min kph 250 }

/-- `SpeedCarController._change_manual_steer(inc)`: drops to manual mode
unconditionally, then applies the bounded trim step. -/
def change_manual_steer (s : CarState) (inc : ℤ) : CarState :=
  let s1 := { s with autodrive := false }
  let new_steer := s1.manual_steer + inc
  if -25 ≤ new_steer ∧ new_steer ≤ 25 then
    { s1 with
      manual_steer := new_steer,
      steering_angle :=
        applySteer s1.steering_angle ((new_steer : ℚ) * (2/100)) }
  else s1

/-- `SpeedCarController._handle_keyboard` for a single key event. -/
def handle_keyboard (s : CarState) (k : Key) : CarState :=
  match k with
  | Key.noKey => s
  | Key.up => set_speed s (s.speed_kph + 5)
  | Key.down => set_speed s (max 0 (s.speed_kph - 5))
  | Key.right => change_manual_steer s 1
  | Key.left => change_manual_steer s (-1)
  | Key.keyA =>
      if s.has_camera then { s with autodrive := true } else s

/-- Python `list.remove`: removes the first occurrence (identity when the
element is absent; `_broadcast` only removes elements it just saw). -/
def pyRemove : List ℕ → ℕ → List ℕ
  | [], _ => []
  | x :: xs, a => if x = a then xs else x :: pyRemove xs a

/-- `SpeedCarController._broadcast` over an abstract subscriber list:
`ok c` says whether `conn.sendall` succeeds for subscriber `c`.  Returns
the list of subscribers a write was attempted to (the full iteration
pass) and the surviving subscriber list after the dead ones are removed
in the second pass. -/
def broadcast (clients : List ℕ) (ok : ℕ → Bool) : List ℕ × List ℕ :=
  let dead := clients.filter (fun c => !(ok c))
  (clients, dead.foldl pyRemove clients)

/-! ## Helper lemmas -/

/-- One `update` keeps the integral strictly inside the widened band
`(-(30+B), 30+B)` when the error is bounded by `B`. -/
lemma pid_update_integral_bound (s : LaneFollowPID) (e B : ℚ)
    (hs : |s.integral| < 30 + B) (he : |e| ≤ B) :
    |((s.update e).1).integral| < 30 + B := by
  have hB : 0 ≤ B := le_trans (abs_nonneg e) he
  obtain ⟨he1, he2⟩ := abs_le.mp he
  obtain ⟨hs1, hs2⟩ := abs_lt.mp hs
  simp only [LaneFollowPID.update]
  split_ifs <;> simp_all <;> rw [abs_lt] <;> constructor <;> linarith

/-- Folding bounded errors through the PID keeps the integral inside the
widened band. -/
lemma runPID_integral_bound (errs : List ℚ) (B : ℚ) (s : LaneFollowPID)
    (hs : |s.integral| < 30 + B) (h : ∀ e ∈ errs, |e| ≤ B) :
    |(runPID s errs).integral| < 30 + B := by
  induction errs generalizing s with
  | nil => exact hs
  | cons e rest ih =>
      have hstep : runPID s (e :: rest) = runPID ((s.update e).1) rest := rfl
      rw [hstep]
      exact ih _ (pid_update_integral_bound s e B hs (h e (by simp)))
        (fun x hx => h x (by simp [hx]))

/-! ## Claim theorems -/

/-- C1, counterexample: the claim says the integral never leaves the open
interval (-30, 30) for every sequence of finite errors, but a single
error of 100 fed to a fresh PID drives the integral to 100, outside the
interval (accumulation is gated on the integral before the addition, not
on the result). -/
theorem C1_counterexample :
    (runPID LaneFollowPID.init [100]).integral = 100 ∧
      ¬(-30 < (runPID LaneFollowPID.init [100]).integral ∧
        (runPID LaneFollowPID.init [100]).integral < 30) := by
  norm_num [runPID, LaneFollowPID.update, LaneFollowPID.init, pysign]

/-- C1, amended: accumulation happens only while the integral is strictly
inside (-30, 30), so for every sequence of errors each bounded by `B` in
absolute value the integral never leaves the widened open interval
`(-(30+B), 30+B)`; in particular it is bounded, and movement back toward
zero (or reset) always remains possible. -/
theorem C1_integral_stays_in_widened_interval (errs : List ℚ) (B : ℚ)
    (hB : 0 ≤ B) (h : ∀ e ∈ errs, |e| ≤ B) :
    -(30 + B) < (runPID LaneFollowPID.init errs).integral ∧
      (runPID LaneFollowPID.init errs).integral < 30 + B := by
  have h0 : |LaneFollowPID.init.integral| < 30 + B := by
    simp [LaneFollowPID.init]; linarith
  exact abs_lt.mp (runPID_integral_bound errs B LaneFollowPID.init h0 h)

/-- C1 witness: the spec's own error sequence [5, 5, 5, -3], bounded by
5, keeps the integral inside (-35, 35). -/
theorem C1_witness :
    (0:ℚ) ≤ 5 ∧
      (-(30 + 5) < (runPID LaneFollowPID.init [5,5,5,-3]).integral ∧
        (runPID LaneFollowPID.init [5,5,5,-3]).integral < 30 + 5) :=
  ⟨by norm_num,
   C1_integral_stays_in_widened_interval [5,5,5,-3] 5 (by norm_num)
     (by intro e he; fin_cases he <;> norm_num)⟩

/-- C7: when consecutive errors cross the setpoint (strictly opposite
signs) and no lazy reset is pending, the integral is zeroed before the
new error is accumulated, so immediately after the crossing call it
equals the new error (accumulation from 0 is always allowed). -/
theorem C7_sign_flip_zeroes_integral (s : LaneFollowPID) (e : ℚ)
    (hr : s.need_reset = false)
    (hsign : (e < 0 ∧ 0 < s.old_value) ∨ (0 < e ∧ s.old_value < 0)) :
    ((s.update e).1).integral = e := by
  have hps : pysign e ≠ pysign s.old_value := by
    rcases hsign with ⟨h1, h2⟩ | ⟨h1, h2⟩
    · rw [pysign, pysign, if_pos h1, if_neg (not_lt.mpr h2.le)]; norm_num
    · rw [pysign, pysign, if_neg (not_lt.mpr h1.le), if_pos h2]; norm_num
  norm_num [LaneFollowPID.update, hr, hps]

/-- C7 witness: after the error sequence [5, 5, 5] the crossing call with
-3 leaves the integral at -3 (it was 15 before the call). -/
theorem C7_witness :
    ((runPID LaneFollowPID.init [5,5,5]).update (-3)).1.integral = -3 := by
  have h1 : runPID LaneFollowPID.init [5,5,5] =
      { old_value := 5, integral := 15, need_reset := false } := by
    norm_num [runPID, LaneFollowPID.update, LaneFollowPID.init, pysign]
  rw [h1]
  exact C7_sign_flip_zeroes_integral
    { old_value := 5, integral := 15, need_reset := false } (-3) rfl
    (Or.inl (by norm_num))

/-- C10: the sign test compares `copysign(1, error)` values, which treat
an exact zero as positive: an error of 0 right after a negative previous
error zeroes the integral (even from a large value such as the one in
`s`), and a negative error right after a previous error of exactly 0
zeroes it again before accumulating, leaving the integral equal to the
new error — although no strict crossing through opposite nonzero signs
occurred. -/
theorem C10_zero_treated_as_positive_sign (s t : LaneFollowPID) (e : ℚ)
    (hr : s.need_reset = false) (ho : s.old_value < 0)
    (hrt : t.need_reset = false) (hot : t.old_value = 0) (he : e < 0) :
    ((s.update 0).1).integral = 0 ∧ ((t.update e).1).integral = e := by
  constructor
  · have hps : pysign 0 ≠ pysign s.old_value := by
      rw [pysign, pysign, if_neg (lt_irrefl 0), if_pos ho]; norm_num
    norm_num [LaneFollowPID.update, hr, hps]
  · have hps : pysign e ≠ pysign t.old_value := by
      rw [pysign, pysign, if_pos he, hot, if_neg (lt_irrefl 0)]; norm_num
    norm_num [LaneFollowPID.update, hrt, hps]

/-- C10 witness: with previous error -1 and integral 25 an error of 0
zeroes the integral; with previous error 0 and integral 25 an error of
-2 leaves the integral at -2. -/
theorem C10_witness :
    (({ old_value := -1, integral := 25, need_reset := false }
        : LaneFollowPID).update 0).1.integral = 0 ∧
      (({ old_value := 0, integral := 25, need_reset := false }
        : LaneFollowPID).update (-2)).1.integral = -2 :=
  C10_zero_treated_as_positive_sign
    { old_value := -1, integral := 25, need_reset := false }
    { old_value := 0, integral := 25, need_reset := false }
    (-2) rfl (by norm_num) rfl rfl (by norm_num)

/-- C2, counterexample: the claim says the committed current steering
angle is clamped to [-0.5, 0.5] before being committed, but six
rate-limited steps toward target 10, starting from the initial angle 0,
commit `self.steering_angle = 0.6`: the clamp is applied only to the
value forwarded to the backend, never to the committed state. -/
theorem C2_counterexample :
    List.foldl applySteer 0 (List.replicate 6 10) = 3/5 ∧
      ¬(List.foldl applySteer 0 (List.replicate 6 10) ≤ 1/2) := by
  norm_num [applySteer, set_steering_angle, List.replicate]

/-- C2, amended: on every call the committed angle moves by at most 0.1
from its previous value, and the value forwarded to the actuation
backend always lies in [-0.5, 0.5]; the clamp, however, is applied only
to the forwarded value and not to the committed current-angle state,
which can leave [-0.5, 0.5]. -/
theorem C2_rate_limit_and_backend_clamp (current target : ℚ) :
    |(set_steering_angle current target).1 - current| ≤ 1/10 ∧
      -(1/2) ≤ (set_steering_angle current target).2 ∧
      (set_steering_angle current target).2 ≤ 1/2 := by
  unfold set_steering_angle
  refine ⟨?_, le_max_left _ _, ?_⟩
  · dsimp only
    split_ifs <;> rw [abs_le] <;> constructor <;> linarith
  · exact max_le (by norm_num) (min_le_left _ _)

/-- C3, counterexample: the claim says the very first call returns
absence, but the first call with the valid reading 0.3 resets the window
to zeros, discards the reading (it is not pushed), and returns the mean
0 — a real value, not the absence sentinel. -/
theorem C3_counterexample :
    (AngleFilter.init.update (3/10)).2 = 0 ∧ (0:ℚ) ≠ UNKNOWN ∧
      (AngleFilter.init.update (3/10)).1.values = [0, 0, 0] := by
  norm_num [AngleFilter.update, AngleFilter.init, UNKNOWN, FILTER_SIZE,
    List.replicate]

/-- C3, amended: whenever the reading is absent the window is reset to
zeros and absence is returned; on the very first call with a valid
reading the window is also reset but the reading is discarded and the
mean 0 of the zero window is returned (not absence); on later valid
readings the value is pushed into the 3-slot window (dropping the
oldest) and the window mean is returned, so 0.3 right after an absence
reset yields 0.1, and absence mid-stream discards all prior history. -/
theorem C3_filter_reset_and_mean :
    (∀ v : ℚ, v ≠ UNKNOWN →
      AngleFilter.init.update v =
        ({ values := [0, 0, 0], first_call := false }, 0)) ∧
    (∀ f : AngleFilter, f.update UNKNOWN =
        ({ values := [0, 0, 0], first_call := false }, UNKNOWN)) ∧
    (∀ (f : AngleFilter) (v : ℚ), f.first_call = false → v ≠ UNKNOWN →
      f.update v =
        ({ values := f.values.drop 1 ++ [v], first_call := false },
          (f.values.drop 1 ++ [v]).sum / 3)) ∧
    ((AngleFilter.init.update UNKNOWN).1.update (3/10)).2 = 1/10 := by
  refine ⟨?_, ?_, ?_, ?_⟩
  · intro v hv
    simp [AngleFilter.update, AngleFilter.init, FILTER_SIZE, hv,
      List.replicate]
  · intro f
    simp [AngleFilter.update, FILTER_SIZE, List.replicate]
  · intro f v hf hv
    simp [AngleFilter.update, FILTER_SIZE, hf, hv]
  · norm_num [AngleFilter.update, AngleFilter.init, UNKNOWN, FILTER_SIZE,
      List.replicate]

/-- C3 witness: a warmed-up filter holding [1, 2, 3] fed the valid value
4 slides the window to [2, 3, 4] and returns its mean 3. -/
theorem C3_witness :
    AngleFilter.update { values := [1, 2, 3], first_call := false } 4 =
      ({ values := [2, 3, 4], first_call := false }, 3) := by
  have h := C3_filter_reset_and_mean.2.2.1
    { values := [1, 2, 3], first_call := false } 4 rfl
    (by norm_num [UNKNOWN])
  have h2 : ((2:ℚ) + (3 + 4)) / 3 = 3 := by norm_num
  simpa [h2] using h

/-- C4, counterexample: the claim says no bias is produced for any
bearing outside (-0.4, 0.4), in particular bearing 0.5, yet at bearing
0.5 and distance 2 the `elif obs_angle > -0.4` branch fires and produces
the bias current + (0.5 + 0.25)/2 = 0.375. -/
theorem C4_counterexample :
    compute_bias 0 (1/2) 2 = Except.ok (some (3/8)) ∧
      Except.ok (some (3/8)) ≠
        (Except.ok none : Except Unit (Option ℚ)) := by
  constructor
  · norm_num [compute_bias, pydiv, Except.map]
  · simp

/-- C4, amended: with distance d ≠ 0, a bearing b with 0 < b < 0.4 gives
bias current + (b - 0.25)/d; any other bearing with b > -0.4 — this
includes every b ≤ 0 above -0.4 and also every b ≥ 0.4 — gives bias
current + (b + 0.25)/d; only bearings b ≤ -0.4 produce no bias. -/
theorem C4_bias_formula (cur b d : ℚ) (hd : d ≠ 0) :
    (0 < b ∧ b < 4/10 →
      compute_bias cur b d = Except.ok (some (cur + (b - 1/4) / d))) ∧
    (-(4/10) < b ∧ b ≤ 0 →
      compute_bias cur b d = Except.ok (some (cur + (b + 1/4) / d))) ∧
    (4/10 ≤ b →
      compute_bias cur b d = Except.ok (some (cur + (b + 1/4) / d))) ∧
    (b ≤ -(4/10) → compute_bias cur b d = Except.ok none) := by
  refine ⟨fun h => ?_, fun h => ?_, fun h => ?_, fun h => ?_⟩
  · simp [compute_bias, pydiv, h, hd, Except.map]
  · have h1 : ¬(0 < b ∧ b < 4/10) := by rintro ⟨h1, -⟩; linarith [h.2]
    simp [compute_bias, pydiv, h1, h.1, hd, Except.map]
  · have h1 : ¬(0 < b ∧ b < 4/10) := by rintro ⟨-, h2⟩; linarith
    have h2 : b > -(4/10) := by linarith
    simp [compute_bias, pydiv, h1, h2, hd, Except.map]
  · have h1 : ¬(0 < b ∧ b < 4/10) := by rintro ⟨h1, -⟩; linarith
    have h2 : ¬(b > -(4/10)) := by linarith
    simp [compute_bias, h1, h2]

/-- C4 witness: the spec's own example — bearing 0.1, distance 2,
current steering 0 — produces the bias (0.1 - 0.25)/2 = -0.075. -/
theorem C4_witness :
    compute_bias 0 (1/10) 2 =
      Except.ok (some ((0:ℚ) + (1/10 - 1/4) / 2)) :=
  (C4_bias_formula 0 (1/10) 2 (by norm_num)).1 (by norm_num)

/-- C5: at the failing input — an obstacle reported at bearing 0.1 with
distance exactly 0, no lane reading — the auto-drive tick divides by the
raw distance and raises `ZeroDivisionError` (modelled as
`Except.error`), so the arbitration path is not total over the
documented domain distance ≥ 0, contradicting the no-exceptions claim. -/
theorem C5_distance_zero_raises :
    run_autodrive LaneFollowPID.init 0 true UNKNOWN (1/10) 0 =
      Except.error () := by
  norm_num [run_autodrive, compute_avoid_steer, compute_bias, pydiv,
    UNKNOWN, Except.map]

/-- `update` always clears (and never sets) the lazy-reset flag. -/
lemma update_need_reset_false (s : LaneFollowPID) (e : ℚ) :
    ((s.update e).1).need_reset = false := by
  simp only [LaneFollowPID.update]
  split_ifs <;> simp_all

/-- C6: when an avoidance steer `A` is produced and a lane reading is
present, the arbitration takes the larger-magnitude command when the
avoidance steer and the PID line correction share a strict sign (max of
two positives, min of two negatives), takes the avoidance steer alone
when the signs disagree (their product is ≤ 0), and never resets the
PID in this branch. -/
theorem C6_arbitration (pid : LaneFollowPID) (cur yellow b d A : ℚ)
    (hy : yellow ≠ UNKNOWN) (hb : b ≠ UNKNOWN)
    (hA : compute_avoid_steer cur b d = Except.ok A) :
    (0 < A ∧ 0 < (pid.update yellow).2 →
        (run_autodrive pid cur true yellow b d).map DriveOut.target =
          Except.ok (some (max A (pid.update yellow).2))) ∧
    (A < 0 ∧ (pid.update yellow).2 < 0 →
        (run_autodrive pid cur true yellow b d).map DriveOut.target =
          Except.ok (some (min A (pid.update yellow).2))) ∧
    (A * (pid.update yellow).2 ≤ 0 →
        (run_autodrive pid cur true yellow b d).map DriveOut.target =
          Except.ok (some A)) ∧
    (run_autodrive pid cur true yellow b d).map
        (fun o => o.pid.need_reset) = Except.ok false := by
  have hx : run_autodrive pid cur true yellow b d =
      Except.ok
        { pid := (pid.update yellow).1,
          steering_angle :=
            (set_steering_angle cur
              (if A > 0 ∧ (pid.update yellow).2 > 0 then
                 max A (pid.update yellow).2
               else if A < 0 ∧ (pid.update yellow).2 < 0 then
                 min A (pid.update yellow).2
               else A)).1,
          target := some
            (if A > 0 ∧ (pid.update yellow).2 > 0 then
               max A (pid.update yellow).2
             else if A < 0 ∧ (pid.update yellow).2 < 0 then
               min A (pid.update yellow).2
             else A),
          backend := some
            (set_steering_angle cur
              (if A > 0 ∧ (pid.update yellow).2 > 0 then
                 max A (pid.update yellow).2
               else if A < 0 ∧ (pid.update yellow).2 < 0 then
                 min A (pid.update yellow).2
               else A)).2,
          brake := 0 } := by
    simp [run_autodrive, hA, Except.map, hy, hb]
  refine ⟨fun h => ?_, fun h => ?_, fun h => ?_, ?_⟩
  · rw [hx]
    simp only [Except.map]
    rw [if_pos ⟨h.1, h.2⟩]
  · have h1 : ¬(A > 0 ∧ (pid.update yellow).2 > 0) := by
      rintro ⟨h1, -⟩; linarith [h.1]
    rw [hx]
    simp only [Except.map]
    rw [if_neg h1, if_pos h]
  · have h1 : ¬(A > 0 ∧ (pid.update yellow).2 > 0) := by
      rintro ⟨h1, h2⟩
      nlinarith
    have h2 : ¬(A < 0 ∧ (pid.update yellow).2 < 0) := by
      rintro ⟨h1, h2⟩
      nlinarith
    rw [hx]
    simp only [Except.map]
    rw [if_neg h1, if_neg h2]
  · rw [hx]
    simp only [Except.map]
    rw [update_need_reset_false]

/-- C6 witness: avoidance steer -3/40 (bearing 0.1, distance 2, current
steering 0) with lane reading -1, whose PID correction is also negative,
commands the more extreme of the two. -/
theorem C6_witness :
    (run_autodrive LaneFollowPID.init 0 true (-1) (1/10) 2).map
        DriveOut.target =
      Except.ok (some (min (-(3/40)) ((LaneFollowPID.init.update (-1)).2))) :=
  (C6_arbitration LaneFollowPID.init 0 (-1) (1/10) 2 (-(3/40))
    (by norm_num [UNKNOWN]) (by norm_num [UNKNOWN])
    (by norm_num [compute_avoid_steer, compute_bias, pydiv,
      Except.map])).2.1
    ⟨by norm_num,
     by norm_num [LaneFollowPID.update, LaneFollowPID.init, pysign, KP, KI,
       KD]⟩

/-- C8: with no camera the request to enter auto-drive is rejected and
the whole state is unchanged (so a manual mode stays manual), and any
manual steering-trim key drops the mode to manual immediately, whatever
the previous mode was. -/
theorem C8_mode_control (s : CarState) :
    (s.has_camera = false → handle_keyboard s Key.keyA = s) ∧
    (handle_keyboard s Key.left).autodrive = false ∧
    (handle_keyboard s Key.right).autodrive = false := by
  refine ⟨fun h => ?_, ?_, ?_⟩
  · simp [handle_keyboard, h]
  · show (change_manual_steer s (-1)).autodrive = false
    simp only [change_manual_steer]
    split_ifs <;> rfl
  · show (change_manual_steer s 1).autodrive = false
    simp only [change_manual_steer]
    split_ifs <;> rfl

/-- C8 witness: a camera-less manual state is left unchanged by the
auto-drive request, and a left-trim key forces an auto-driving state
back to manual. -/
theorem C8_witness :
    handle_keyboard
        { autodrive := false, has_camera := false, speed_kph := 0,
          steering_angle := 0, manual_steer := 0 } Key.keyA =
      { autodrive := false, has_camera := false, speed_kph := 0,
        steering_angle := 0, manual_steer := 0 } ∧
    (handle_keyboard
        { autodrive := true, has_camera := true, speed_kph := 0,
          steering_angle := 0, manual_steer := 0 } Key.left).autodrive
      = false :=
  ⟨(C8_mode_control _).1 rfl, (C8_mode_control _).2.1⟩

/-- Removing an element that differs from the head walks past the head. -/
lemma pyRemove_cons_of_ne (x a : ℕ) (xs : List ℕ) (h : x ≠ a) :
    pyRemove (x :: xs) a = x :: pyRemove xs a := by
  simp [pyRemove, h]

/-- Removing the head removes exactly it. -/
lemma pyRemove_cons_self (x : ℕ) (xs : List ℕ) :
    pyRemove (x :: xs) x = xs := by
  simp [pyRemove]

/-- A removal pass whose targets all differ from the head leaves the
head in place. -/
lemma foldl_pyRemove_cons (dead : List ℕ) (x : ℕ) (xs : List ℕ)
    (h : ∀ d ∈ dead, d ≠ x) :
    dead.foldl pyRemove (x :: xs) = x :: dead.foldl pyRemove xs := by
  induction dead generalizing xs with
  | nil => rfl
  | cons d ds ih =>
      simp only [List.foldl_cons]
      rw [pyRemove_cons_of_ne x d xs (fun he => h d (by simp) he.symm)]
      exact ih (pyRemove xs d) (fun e he => h e (by simp [he]))

/-- The two-pass broadcast removal keeps exactly the subscribers whose
write succeeded, in order. -/
lemma broadcast_removes_failures (clients : List ℕ) (ok : ℕ → Bool)
    (hnd : clients.Nodup) :
    (clients.filter (fun c => !(ok c))).foldl pyRemove clients =
      clients.filter ok := by
  induction clients with
  | nil => rfl
  | cons x xs ih =>
      obtain ⟨hx, hxs⟩ := List.nodup_cons.mp hnd
      by_cases hok : ok x
      · have hfilter : (x :: xs).filter (fun c => !(ok c)) =
            xs.filter (fun c => !(ok c)) := by simp [hok]
        rw [hfilter, foldl_pyRemove_cons _ x xs
          (fun d hd => ne_of_mem_of_not_mem (List.mem_of_mem_filter hd) hx)]
        rw [ih hxs]
        simp [hok]
      · have hfilter : (x :: xs).filter (fun c => !(ok c)) =
            x :: xs.filter (fun c => !(ok c)) := by simp [hok]
        rw [hfilter]
        simp only [List.foldl_cons, pyRemove_cons_self]
        rw [ih hxs]
        simp [hok]

/-- C9: a broadcast pass attempts the write on every current subscriber
(first component) and then — in a second pass, never during the
iteration — removes exactly the subscribers whose write failed, leaving
the others in order (second component). -/
theorem C9_broadcast_exact_removal (clients : List ℕ) (ok : ℕ → Bool)
    (hnd : clients.Nodup) :
    (broadcast clients ok).1 = clients ∧
      (broadcast clients ok).2 = clients.filter ok :=
  ⟨rfl, broadcast_removes_failures clients ok hnd⟩

/-- C9 witness: of three subscribers with the middle write failing,
exactly the middle one is removed and the other two stay. -/
theorem C9_witness :
    (broadcast [1, 2, 3] (fun c => !(c == 2))).1 = [1, 2, 3] ∧
      (broadcast [1, 2, 3] (fun c => !(c == 2))).2 = [1, 3] := by
  have h := C9_broadcast_exact_removal [1, 2, 3] (fun c => !(c == 2))
    (by decide)
  exact ⟨h.1, h.2.trans (by decide)⟩

end SpeedCar
